import Mathlib

/-!
Shallow embedding of the leash in-kernel enforcement plane
(src/internal/lsm/bpf/lsm_open.bpf.c, lsm_exec.bpf.c, lsm_connect.bpf.c).

Buffers (paths, comm, args) are modelled as lists of byte values; reading
past the end of the list yields 0, matching a zero-filled C buffer.
BPF map lookups are modelled as Option-returning lookups: array-map
single slots as an Option value, hash maps as association lists, and the
rule arrays as lists of optional rules indexed by rule number.
Ring-buffer reservation success is an explicit Bool input of each probe;
a probe returns its kernel verdict (0 allow, -13 deny) together with the
event it submitted, if any.
-/

namespace Leash

/-- Read byte i of a zero-filled buffer. -/
def byteAt (l : List Nat) (i : Nat) : Nat := l.getD i 0

/-- Byte list of an ASCII string literal (no terminating NUL byte). -/
def strBytes (s : String) : List Nat := s.toList.map Char.toNat

/-- Delete every binding of key k from an association list
(bpf_map_delete_elem on a hash map). -/
def mapDelete (pm : List (Nat × α)) (k : Nat) : List (Nat × α) :=
  pm.filter (fun e => e.1 ≠ k)

/-- Insert-or-overwrite a binding (bpf_map_update_elem with BPF_ANY). -/
def mapUpdate (pm : List (Nat × α)) (k : Nat) (v : α) : List (Nat × α) :=
  (k, v) :: mapDelete pm k

/-- First-match scan over rule indices i, i+1, ..., i+fuel-1:
returns the first some produced by f, none when every index yields none. -/
def firstHitAux (f : Nat → Option Nat) : Nat → Nat → Option Nat
  | _, 0 => none
  | i, fuel + 1 =>
    match f i with
    | some a => some a
    | none => firstHitAux f (i + 1) fuel

/-- First-match scan over indices 0 .. n-1. -/
def firstHit (f : Nat → Option Nat) (n : Nat) : Option Nat := firstHitAux f 0 n

-- Operation types (lsm_open.bpf.c)
def OP_OPEN : Nat := 0
def OP_OPEN_RO : Nat := 1
def OP_OPEN_RW : Nat := 2

-- Kernel file-mode bits (vmlinux.h)
def FMODE_READ : Nat := 1
def FMODE_WRITE : Nat := 2

def AF_INET : Nat := 2

/-- Ambient task state read through BPF helpers by every probe. -/
structure TaskEnv where
  cgroup_id : Nat
  pid_tgid : Nat
  timestamp : Nat
  comm : List Nat
deriving Repr, DecidableEq

/-- pid = top 32 bits of bpf_get_current_pid_tgid(). -/
def taskPid (env : TaskEnv) : Nat := env.pid_tgid >>> 32

/-- tgid = low 32 bits of bpf_get_current_pid_tgid(). -/
def taskTgid (env : TaskEnv) : Nat := env.pid_tgid &&& 0xFFFFFFFF

/-- policy_result ? 0 : -13 -/
def verdictOf (pr : Nat) : Int := if pr ≠ 0 then 0 else -13

/-- struct policy_rule (lsm_open.bpf.c). -/
structure PolicyRule where
  action : Nat
  operation : Nat
  path_len : Nat
  path : List Nat
  is_directory : Nat
deriving Repr, DecidableEq

/-- struct open_event (lsm_open.bpf.c). -/
structure OpenEvent where
  pid : Nat
  tgid : Nat
  timestamp : Nat
  cgroup_id : Nat
  comm : List Nat
  path : List Nat
  operation : Nat
  result : Int
deriving Repr, DecidableEq

/-- The open-domain maps (target_cgroup, allowed_cgroups, policy_rules,
num_rules, default_policy of lsm_open.bpf.c). -/
structure OpenMaps where
  target_cgroup : Option Nat
  allowed_cgroups : List (Nat × Nat)
  policy_rules : List (Option PolicyRule)
  num_rules : Option Nat
  default_policy : Option Nat
deriving Repr, DecidableEq

/-- is_target_cgroup of lsm_open.bpf.c: sentinel present and non-zero,
and the current cgroup id present in allowed_cgroups with value 1. -/
def is_target_cgroup (target : Option Nat) (allowed : List (Nat × Nat))
    (cur : Nat) : Bool :=
  match target with
  | none => false
  | some t =>
    if t = 0 then false
    else
      match List.lookup cur allowed with
      | some v => v == 1
      | none => false

/-- simple_string_starts_with of lsm_open.bpf.c / lsm_exec.bpf.c:
byte-wise prefix comparison over min(max_len, 64) bytes. -/
def simple_string_starts_with (s p : List Nat) (max_len : Nat) : Bool :=
  (List.range (min max_len 64)).all (fun i => byteAt s i == byteAt p i)

/-- The eight nsfs prefixes checked by is_nsfs_path. -/
def nsfsPrefixes : List (List Nat) :=
  [strBytes "mnt:[", strBytes "net:[", strBytes "ipc:[", strBytes "pid:[",
   strBytes "uts:[", strBytes "user:[", strBytes "cgroup:[", strBytes "time:["]

/-- Byte-wise comparison of path against one nsfs pattern head. -/
def startsWithBytes (path pre : List Nat) : Bool :=
  (List.range pre.length).all (fun i => byteAt path i == byteAt pre i)

/-- The bounded digit scan of is_nsfs_path: starting at pos, consume up to
fuel (=16) characters; digits set the found flag, a closing bracket returns
the flag, anything else (including NUL) stops with false. -/
def nsfsDigitScan (path : List Nat) : Nat → Nat → Bool → Bool
  | _, 0, _ => false
  | pos, fuel + 1, foundDigit =>
    if pos ≥ 256 then false
    else
      let c := byteAt path pos
      if 48 ≤ c ∧ c ≤ 57 then nsfsDigitScan path (pos + 1) fuel true
      else if c = 93 then foundDigit
      else false

/-- is_nsfs_path of lsm_open.bpf.c. -/
def is_nsfs_path (path : List Nat) : Bool :=
  nsfsPrefixes.any (fun pre =>
    startsWithBytes path pre && nsfsDigitScan path pre.length 16 false)

/-- get_file_operation_type of lsm_open.bpf.c. -/
def get_file_operation_type (f_mode : Nat) : Nat :=
  if f_mode &&& FMODE_WRITE ≠ 0 then OP_OPEN_RW
  else if f_mode &&& FMODE_READ ≠ 0 then OP_OPEN_RO
  else OP_OPEN

/-- The body of the rule loop of check_path_policy for one rule:
some action when the rule decides, none when matching continues. -/
def openRuleVerdict (rule : PolicyRule) (path : List Nat) (fop : Nat) :
    Option Nat :=
  if rule.path_len = 0 ∨ rule.path_len > 64 then none
  else if simple_string_starts_with path rule.path rule.path_len then
    if rule.operation = OP_OPEN then some rule.action
    else if rule.operation = fop then some rule.action
    else none
  else none

/-- check_path_policy of lsm_open.bpf.c. -/
def check_path_policy (m : OpenMaps) (path : List Nat) (fop : Nat) : Nat :=
  let n0 := m.num_rules.getD 0
  if n0 = 0 then m.default_policy.getD 0
  else
    match firstHit
        (fun i => (m.policy_rules.getD i none).bind
          (fun r => openRuleVerdict r path fop)) (min n0 256) with
    | some a => a
    | none => m.default_policy.getD 0

/-- The comm checks of lsm_open: comm equals "apt-get" over its 7 bytes. -/
def comm_is_apt_get (comm : List Nat) : Bool :=
  (List.range 7).all (fun i => byteAt comm i == byteAt (strBytes "apt-get") i)

/-- comm begins with "dpkg". -/
def comm_is_dpkg (comm : List Nat) : Bool :=
  (List.range 4).all (fun i => byteAt comm i == byteAt (strBytes "dpkg") i)

/-- comm begins with "update". -/
def comm_is_update (comm : List Nat) : Bool :=
  (List.range 6).all (fun i => byteAt comm i == byteAt (strBytes "update") i)

/-- The force-allow condition of lsm_open:
(is_apt_get and comm[7] == NUL) or is_dpkg or is_update. -/
def comm_bypass (comm : List Nat) : Bool :=
  (comm_is_apt_get comm && (byteAt comm 7 == 0))
    || comm_is_dpkg comm || comm_is_update comm

/-- The lsm/file_open probe (lsm_open of lsm_open.bpf.c). path is the
resolved path (bpf_d_path with its fallbacks), f_mode the file mode,
resOk the outcome of bpf_ringbuf_reserve. Returns the kernel verdict and
the submitted event, if any. -/
def lsm_open (env : TaskEnv) (m : OpenMaps) (path : List Nat)
    (f_mode : Nat) (resOk : Bool) : Int × Option OpenEvent :=
  if !(is_target_cgroup m.target_cgroup m.allowed_cgroups env.cgroup_id) then
    (0, none)
  else if is_nsfs_path path then (0, none)
  else
    let fop := get_file_operation_type f_mode
    let pr := check_path_policy m path fop
    if !resOk then (verdictOf pr, none)
    else
      let pr' := if comm_bypass env.comm then 1 else pr
      (verdictOf pr',
       some { pid := taskPid env, tgid := taskTgid env,
              timestamp := env.timestamp, cgroup_id := env.cgroup_id,
              comm := env.comm, path := path, operation := fop,
              result := verdictOf pr' })

/-- struct exec_policy_rule (lsm_exec.bpf.c). args are the up-to-4
argument patterns of at most 32 bytes, arg_lens their lengths. -/
structure ExecPolicyRule where
  action : Nat
  operation : Nat
  path_len : Nat
  path : List Nat
  is_directory : Nat
  arg_count : Nat
  has_wildcard : Nat
  args : List (List Nat)
  arg_lens : List Nat
deriving Repr, DecidableEq

/-- struct pending_exec_args (lsm_exec.bpf.c): the correlation payload
written by the execve tracepoint, read and deleted by the LSM hook. -/
structure PendingExecArgs where
  timestamp : Nat
  argc : Nat
  original_path : List Nat
  detailed_args : List (List Nat)
deriving Repr, DecidableEq

/-- struct exec_event (lsm_exec.bpf.c). -/
structure ExecEvent where
  pid : Nat
  timestamp : Nat
  cgroup_id : Nat
  comm : List Nat
  path : List Nat
  result : Int
  argc : Nat
  detailed_args : List (List Nat)
deriving Repr, DecidableEq

/-- The exec-domain maps (exec_target_cgroup, exec_allowed_cgroups,
exec_policy_rules, exec_num_rules, exec_default_policy).
The jointly mutated pending_exec_args map is passed separately. -/
structure ExecMaps where
  target_cgroup : Option Nat
  allowed_cgroups : List (Nat × Nat)
  policy_rules : List (Option ExecPolicyRule)
  num_rules : Option Nat
  default_policy : Option Nat
deriving Repr, DecidableEq

/-- is_exec_target_cgroup of lsm_exec.bpf.c: sentinel present and
non-zero, and the current cgroup id present with value 1. -/
def is_exec_target_cgroup (target : Option Nat) (allowed : List (Nat × Nat))
    (cur : Nat) : Bool :=
  match target with
  | none => false
  | some t =>
    if t = 0 then false
    else
      match List.lookup cur allowed with
      | some v => v == 1
      | none => false

/-- The innermost comparison of the blacklist scan: the bytes of the
actual argument equal those of the pattern over min(arg_lens[p], 16)
bytes. -/
def argPrefixEq (actual pat : List Nat) (patLen : Nat) : Bool :=
  (List.range (min patLen 16)).all (fun j => byteAt actual j == byteAt pat j)

/-- The double loop of the deny-rule argument blacklist: some pattern
index p < min(arg_count, 3) matches some actual argument index
a in 1..3 with a < argc. -/
def blacklist_hit (rule : ExecPolicyRule) (pending : PendingExecArgs) :
    Bool :=
  (List.range (min rule.arg_count 3)).any (fun p =>
    (List.range' 1 3).any (fun a =>
      decide (a < pending.argc) &&
        argPrefixEq (pending.detailed_args.getD a [])
          (rule.args.getD p []) (rule.arg_lens.getD p 0)))

/-- The body of the rule loop of check_exec_policy for one rule:
some action when the rule decides, none when matching continues. -/
def execRuleVerdict (rule : ExecPolicyRule) (path : List Nat)
    (pending : Option PendingExecArgs) : Option Nat :=
  if rule.path_len = 0 ∨ rule.path_len > 64 then none
  else if simple_string_starts_with path rule.path rule.path_len then
    if rule.arg_count = 0 then some rule.action
    else
      match pending with
      | some P =>
        if P.argc > 1 ∧ rule.arg_count > 0 ∧ rule.action = 0
            ∧ blacklist_hit rule P then some 0
        else none
      | none => none
  else none

/-- check_exec_policy of lsm_exec.bpf.c. pm is the pending_exec_args map,
pid the pid of the current task (the source looks the entry up once per
path-matched rule; the map is constant over the loop, so the lookup is
hoisted). -/
def check_exec_policy (m : ExecMaps) (pm : List (Nat × PendingExecArgs))
    (pid : Nat) (path : List Nat) : Nat :=
  let n0 := m.num_rules.getD 0
  if n0 = 0 then m.default_policy.getD 0
  else
    let pending := List.lookup pid pm
    match firstHit
        (fun i => (m.policy_rules.getD i none).bind
          (fun r => execRuleVerdict r path pending)) (min n0 64) with
    | some a => a
    | none => m.default_policy.getD 0

/-- The lsm/bprm_check_security probe (lsm_exec of lsm_exec.bpf.c).
Returns the kernel verdict, the submitted event if any, and the
pending_exec_args map after the probe ran. -/
def lsm_exec (env : TaskEnv) (m : ExecMaps)
    (pm : List (Nat × PendingExecArgs)) (path : List Nat) (resOk : Bool) :
    Int × Option ExecEvent × List (Nat × PendingExecArgs) :=
  if !(is_exec_target_cgroup m.target_cgroup m.allowed_cgroups
        env.cgroup_id) then
    (0, none, pm)
  else
    let pr := check_exec_policy m pm (taskPid env) path
    if !resOk then (verdictOf pr, none, pm)
    else
      match List.lookup (taskPid env) pm with
      | some pending =>
        (verdictOf pr,
         some { pid := taskPid env, timestamp := env.timestamp,
                cgroup_id := env.cgroup_id, comm := env.comm, path := path,
                result := verdictOf pr, argc := pending.argc,
                detailed_args := pending.detailed_args },
         mapDelete pm (taskPid env))
      | none =>
        (verdictOf pr,
         some { pid := taskPid env, timestamp := env.timestamp,
                cgroup_id := env.cgroup_id, comm := env.comm, path := path,
                result := verdictOf pr, argc := 0,
                detailed_args := List.replicate 6 [] },
         pm)

/-- bpf_probe_read_user_str into a 24-byte buffer: at most 23 bytes of
the argument are kept. -/
def truncate24 (a : List Nat) : List Nat := a.take 23

/-- Zero-fill the detailed_args array up to its 6 slots. -/
def padTo6 (l : List (List Nat)) : List (List Nat) :=
  l ++ List.replicate (6 - l.length) []

/-- The tracepoint/syscalls/sys_enter_execve probe
(trace_sys_enter_execve of lsm_exec.bpf.c). argv is the sequence of
argument strings readable from user memory, in order: a pointer-read
failure or a null pointer ends the sequence, so only its prefix of at
most 6 entries is captured. filename is none when ctx->filename is null.
Returns the pending_exec_args map after the probe ran. -/
def trace_sys_enter_execve (env : TaskEnv) (m : ExecMaps)
    (pm : List (Nat × PendingExecArgs)) (filename : Option (List Nat))
    (argv : List (List Nat)) : List (Nat × PendingExecArgs) :=
  if !(is_exec_target_cgroup m.target_cgroup m.allowed_cgroups
        env.cgroup_id) then
    pm
  else
    let captured := (argv.take 6).map truncate24
    let pending : PendingExecArgs :=
      if captured.length = 0 then
        { timestamp := env.timestamp, argc := 1,
          original_path := filename.getD [],
          detailed_args := padTo6 [env.comm.take 16] }
      else
        { timestamp := env.timestamp, argc := captured.length,
          original_path := filename.getD [],
          detailed_args := padTo6 captured }
    mapUpdate pm (taskPid env) pending

/-- struct connect_policy_rule (lsm_connect.bpf.c). -/
structure ConnectPolicyRule where
  action : Nat
  operation : Nat
  dest_ip : Nat
  dest_port : Nat
  hostname : List Nat
  hostname_len : Nat
  is_wildcard : Nat
deriving Repr, DecidableEq

/-- struct connect_event (lsm_connect.bpf.c). -/
structure ConnectEvent where
  pid : Nat
  tgid : Nat
  timestamp : Nat
  cgroup_id : Nat
  comm : List Nat
  family : Nat
  protocol : Nat
  dest_ip : Nat
  dest_port : Nat
  result : Int
  dest_hostname : List Nat
deriving Repr, DecidableEq

/-- The connect-domain maps (connect_target_cgroup,
connect_allowed_cgroups, connect_policy_rules, connect_num_rules,
connect_default_policy, dns_cache). num_rules is a signed slot (s32). -/
structure ConnectMaps where
  target_cgroup : Option Nat
  allowed_cgroups : List (Nat × Nat)
  policy_rules : List (Option ConnectPolicyRule)
  num_rules : Option Int
  default_policy : Option Nat
  dns_cache : List (Nat × List Nat)
deriving Repr, DecidableEq

/-- is_connect_target_cgroup of lsm_connect.bpf.c: sentinel present and
non-zero, and the current cgroup id present in the allowed set (the
stored value is not inspected). -/
def is_connect_target_cgroup (target : Option Nat)
    (allowed : List (Nat × Nat)) (cur : Nat) : Bool :=
  match target with
  | none => false
  | some t => if t = 0 then false else (List.lookup cur allowed).isSome

/-- The body of the rule loop of check_connect_policy for one rule. -/
def connectRuleVerdict (rule : ConnectPolicyRule)
    (dest_ip dest_port : Nat) : Option Nat :=
  if rule.dest_ip ≠ 0 ∧ rule.dest_ip ≠ dest_ip then none
  else if rule.dest_port ≠ 0 ∧ rule.dest_port ≠ dest_port then none
  else some rule.action

/-- check_connect_policy of lsm_connect.bpf.c (hostname matching is
disabled: the hostname fields are never consulted). -/
def check_connect_policy (m : ConnectMaps) (dest_ip dest_port : Nat) :
    Nat :=
  match m.num_rules with
  | none => 0
  | some nr =>
    if nr ≤ 0 then m.default_policy.getD 0
    else
      match firstHit
          (fun i => (m.policy_rules.getD i none).bind
            (fun r => connectRuleVerdict r dest_ip dest_port))
          (min nr.toNat 256) with
      | some a => a
      | none => m.default_policy.getD 0

/-- process_network_event of lsm_connect.bpf.c: DNS annotation, policy
check, event emission, verdict. protocol is the sk_protocol field read
from the socket. -/
def process_network_event (env : TaskEnv) (m : ConnectMaps)
    (protocol dest_ip dest_port family : Nat) (resOk : Bool) :
    Int × Option ConnectEvent :=
  let hostname := (List.lookup dest_ip m.dns_cache).getD []
  let pr := check_connect_policy m dest_ip dest_port
  if !resOk then (verdictOf pr, none)
  else
    (verdictOf pr,
     some { pid := taskPid env, tgid := taskTgid env,
            timestamp := env.timestamp, cgroup_id := env.cgroup_id,
            comm := env.comm, family := family, protocol := protocol,
            dest_ip := dest_ip, dest_port := dest_port,
            result := verdictOf pr, dest_hostname := hostname })

/-- Inputs of lsm_connect read from user memory: the sa_family read and
the full sockaddr_in read; none models a failed bpf_probe_read_user. -/
structure ConnectInput where
  familyRead : Option Nat
  addrRead : Option (Nat × Nat)
  protocol : Nat
deriving Repr, DecidableEq

/-- The lsm/socket_connect probe (lsm_connect of lsm_connect.bpf.c). -/
def lsm_connect (env : TaskEnv) (m : ConnectMaps) (inp : ConnectInput)
    (resOk : Bool) : Int × Option ConnectEvent :=
  if !(is_connect_target_cgroup m.target_cgroup m.allowed_cgroups
        env.cgroup_id) then
    (0, none)
  else
    match inp.familyRead with
    | none => (0, none)
    | some fam =>
      if fam ≠ AF_INET then (0, none)
      else
        match inp.addrRead with
        | none => (0, none)
        | some (ip, port) =>
          process_network_event env m inp.protocol ip port fam resOk

/-- Inputs of lsm_sendmsg read from kernel memory: whether the msg_name
pointer could be read, whether it was null, then family and sockaddr_in
reads (none models a failed bpf_probe_read_kernel). -/
structure SendmsgInput where
  readNameOk : Bool
  nameNull : Bool
  familyRead : Option Nat
  addrRead : Option (Nat × Nat)
  protocol : Nat
deriving Repr, DecidableEq

/-- The lsm/socket_sendmsg probe (lsm_sendmsg of lsm_connect.bpf.c). -/
def lsm_sendmsg (env : TaskEnv) (m : ConnectMaps) (inp : SendmsgInput)
    (resOk : Bool) : Int × Option ConnectEvent :=
  if !(is_connect_target_cgroup m.target_cgroup m.allowed_cgroups
        env.cgroup_id) then
    (0, none)
  else if !inp.readNameOk then (0, none)
  else if inp.nameNull then (0, none)
  else
    match inp.familyRead with
    | none => (0, none)
    | some fam =>
      if fam ≠ AF_INET then (0, none)
      else
        match inp.addrRead with
        | none => (0, none)
        | some (ip, port) =>
          process_network_event env m inp.protocol ip port fam resOk

/-!
Concrete fixtures used by witnesses and counterexamples below.
Cgroup 7 is monitored (sentinel 5, present with value 1 unless noted).
-/

/-- A task in cgroup 7 whose comm is "apt-get". -/
def envApt : TaskEnv :=
  { cgroup_id := 7, pid_tgid := 42 <<< 32 ||| 43, timestamp := 100,
    comm := strBytes "apt-get" }

/-- A task in cgroup 7 whose comm is "bash". -/
def envBash : TaskEnv :=
  { cgroup_id := 7, pid_tgid := 42 <<< 32 ||| 43, timestamp := 100,
    comm := strBytes "bash" }

/-- Open maps: monitored, no rules, default deny. -/
def openDeny : OpenMaps :=
  { target_cgroup := some 5, allowed_cgroups := [(7, 1)],
    policy_rules := [], num_rules := none, default_policy := some 0 }

/-- Open maps with the sentinel slot missing. -/
def openUnset : OpenMaps :=
  { target_cgroup := none, allowed_cgroups := [(7, 1)],
    policy_rules := [], num_rules := none, default_policy := some 0 }

/-- deny open /etc/shadow for any mode. -/
def ruleShadow : PolicyRule :=
  { action := 0, operation := OP_OPEN, path_len := 11,
    path := strBytes "/etc/shadow", is_directory := 0 }

/-- Open maps: monitored, [ruleShadow], default allow. -/
def openShadow : OpenMaps :=
  { target_cgroup := some 5, allowed_cgroups := [(7, 1)],
    policy_rules := [some ruleShadow], num_rules := some 1,
    default_policy := some 1 }

/-- deny exec of /bin/ with argument pattern "--privileged". -/
def execDenyPriv : ExecPolicyRule :=
  { action := 0, operation := 3, path_len := 5, path := strBytes "/bin/",
    is_directory := 1, arg_count := 1, has_wildcard := 0,
    args := [strBytes "--privileged"], arg_lens := [12] }

/-- Exec maps: monitored, [execDenyPriv], default allow. -/
def execMaps1 : ExecMaps :=
  { target_cgroup := some 5, allowed_cgroups := [(7, 1)],
    policy_rules := [some execDenyPriv], num_rules := some 1,
    default_policy := some 1 }

/-- Correlated args for an exec of /bin/ls --privileged. -/
def pendPriv : PendingExecArgs :=
  { timestamp := 90, argc := 2, original_path := strBytes "/bin/ls",
    detailed_args := padTo6 [strBytes "/bin/ls", strBytes "--privileged"] }

/-- Connect maps: monitored, allow port 443 from any IP, default deny. -/
def connAllow443 : ConnectPolicyRule :=
  { action := 1, operation := 4, dest_ip := 0, dest_port := 443,
    hostname := [], hostname_len := 0, is_wildcard := 0 }

/-- Connect maps with connAllow443 as the single rule. -/
def connMaps1 : ConnectMaps :=
  { target_cgroup := some 5, allowed_cgroups := [(7, 1)],
    policy_rules := [some connAllow443], num_rules := some 1,
    default_policy := some 0, dns_cache := [] }

/-- Connect maps whose allowed-set entry for cgroup 7 stores value 0,
with no rules and default deny. -/
def connValZero : ConnectMaps :=
  { target_cgroup := some 5, allowed_cgroups := [(7, 0)],
    policy_rules := [], num_rules := some 0,
    default_policy := some 0, dns_cache := [] }

/-- An IPv4 connect request to 1.2.3.4:80 over TCP. -/
def connReq80 : ConnectInput :=
  { familyRead := some 2, addrRead := some (0x04030201, 80),
    protocol := 6 }

/-- An nsfs-shaped path whose inode number has 16 digits. -/
def pathNsfs16 : List Nat := strBytes "net:[1234567890123456]"

/-- The pending map produced by the execve tracepoint for envBash
running /bin/ls --color on an empty map. -/
def pmAfterTrace : List (Nat × PendingExecArgs) :=
  trace_sys_enter_execve envBash execMaps1 [] (some (strBytes "/bin/ls"))
    [strBytes "/bin/ls", strBytes "--color"]

/-! Helper lemmas about the first-match loop, map lookups and the gates. -/

theorem firstHitAux_eq_none (f : Nat → Option Nat) :
    ∀ (fuel i : Nat), (∀ j, i ≤ j → j < i + fuel → f j = none) →
      firstHitAux f i fuel = none := by
  intro fuel
  induction fuel with
  | zero => intro i _; rfl
  | succ n ih =>
    intro i h
    have h0 : f i = none := h i (Nat.le_refl i) (by omega)
    simp only [firstHitAux, h0]
    exact ih (i + 1) (fun j hj1 hj2 => h j (by omega) (by omega))

theorem firstHitAux_eq_some (f : Nat → Option Nat) :
    ∀ (fuel i k a : Nat), i ≤ k → k < i + fuel →
      (∀ j, i ≤ j → j < k → f j = none) → f k = some a →
      firstHitAux f i fuel = some a := by
  intro fuel
  induction fuel with
  | zero => intro i k a h1 h2 _ _; exact absurd h2 (by omega)
  | succ n ih =>
    intro i k a hik hk hnone hfk
    by_cases hcase : i = k
    · subst hcase; simp only [firstHitAux, hfk]
    · have h0 : f i = none := hnone i (Nat.le_refl i) (by omega)
      simp only [firstHitAux, h0]
      exact ih (i + 1) k a (by omega) (by omega)
        (fun j hj1 hj2 => hnone j (by omega) hj2) hfk

theorem firstHit_eq_none (f : Nat → Option Nat) (n : Nat)
    (h : ∀ j, j < n → f j = none) : firstHit f n = none :=
  firstHitAux_eq_none f n 0 (fun j _ hj2 => h j (by omega))

theorem firstHit_eq_some (f : Nat → Option Nat) (n k a : Nat)
    (hk : k < n) (hnone : ∀ j, j < k → f j = none) (hfk : f k = some a) :
    firstHit f n = some a :=
  firstHitAux_eq_some f n 0 k a (Nat.zero_le k) (by omega)
    (fun j _ hj2 => hnone j hj2) hfk

theorem lookup_mapDelete_self (k : Nat) :
    ∀ (l : List (Nat × α)), List.lookup k (mapDelete l k) = none := by
  intro l
  induction l with
  | nil => rfl
  | cons e t ih =>
    by_cases he : e.1 = k
    · simpa [mapDelete, he] using ih
    · have hk : (k == e.1) = false := by
        simp [Ne.symm he]
      simpa [mapDelete, he, List.lookup, hk] using ih

theorem lookup_mapUpdate_self (k : Nat) (v : α) (l : List (Nat × α)) :
    List.lookup k (mapUpdate l k v) = some v := by
  simp [mapUpdate, List.lookup]

theorem is_target_cgroup_true_iff (target : Option Nat)
    (allowed : List (Nat × Nat)) (cur : Nat) :
    is_target_cgroup target allowed cur = true ↔
      ∃ t, target = some t ∧ t ≠ 0 ∧ List.lookup cur allowed = some 1 := by
  cases target with
  | none => simp [is_target_cgroup]
  | some t =>
    by_cases ht : t = 0
    · simp [is_target_cgroup, ht]
    · cases hl : List.lookup cur allowed with
      | none => simp [is_target_cgroup, ht, hl]
      | some v => simp [is_target_cgroup, ht, hl]

theorem is_exec_target_cgroup_true_iff (target : Option Nat)
    (allowed : List (Nat × Nat)) (cur : Nat) :
    is_exec_target_cgroup target allowed cur = true ↔
      ∃ t, target = some t ∧ t ≠ 0 ∧ List.lookup cur allowed = some 1 := by
  cases target with
  | none => simp [is_exec_target_cgroup]
  | some t =>
    by_cases ht : t = 0
    · simp [is_exec_target_cgroup, ht]
    · cases hl : List.lookup cur allowed with
      | none => simp [is_exec_target_cgroup, ht, hl]
      | some v => simp [is_exec_target_cgroup, ht, hl]

theorem is_connect_target_cgroup_true_iff (target : Option Nat)
    (allowed : List (Nat × Nat)) (cur : Nat) :
    is_connect_target_cgroup target allowed cur = true ↔
      ∃ t, target = some t ∧ t ≠ 0 ∧
        (List.lookup cur allowed).isSome = true := by
  cases target with
  | none => simp [is_connect_target_cgroup]
  | some t =>
    by_cases ht : t = 0
    · simp [is_connect_target_cgroup, ht]
    · simp [is_connect_target_cgroup, ht]

/--
C6: in the open matcher, for every rule whose path prefix matches, a rule
with operation OPEN matches any file mode and returns its action;
otherwise the rule returns its action only if rule.operation equals the
observed mode, where the observed mode is OPEN_RW when the write mode
bit is set, else OPEN_RO when the read bit is set, else OPEN; when the
path matches but the operation does not, matching continues to the next
rule; when no rule matches, the verdict is the default-policy slot
value, or deny (0) if that slot is absent.
-/
theorem open_matcher_semantics :
    (∀ (r : PolicyRule) (path : List Nat) (fop : Nat),
      1 ≤ r.path_len → r.path_len ≤ 64 →
      simple_string_starts_with path r.path r.path_len = true →
      ((r.operation = OP_OPEN → openRuleVerdict r path fop = some r.action) ∧
       (r.operation = fop → openRuleVerdict r path fop = some r.action) ∧
       (r.operation ≠ OP_OPEN → r.operation ≠ fop →
         openRuleVerdict r path fop = none)))
    ∧
    (∀ f_mode : Nat,
      (f_mode &&& FMODE_WRITE ≠ 0 →
        get_file_operation_type f_mode = OP_OPEN_RW) ∧
      (f_mode &&& FMODE_WRITE = 0 → f_mode &&& FMODE_READ ≠ 0 →
        get_file_operation_type f_mode = OP_OPEN_RO) ∧
      (f_mode &&& FMODE_WRITE = 0 → f_mode &&& FMODE_READ = 0 →
        get_file_operation_type f_mode = OP_OPEN))
    ∧
    (∀ (m : OpenMaps) (path : List Nat) (fop k a : Nat),
      k < min (m.num_rules.getD 0) 256 →
      (∀ j, j < k → (m.policy_rules.getD j none).bind
        (fun r => openRuleVerdict r path fop) = none) →
      (m.policy_rules.getD k none).bind
        (fun r => openRuleVerdict r path fop) = some a →
      check_path_policy m path fop = a)
    ∧
    (∀ (m : OpenMaps) (path : List Nat) (fop : Nat),
      (∀ j, j < min (m.num_rules.getD 0) 256 →
        (m.policy_rules.getD j none).bind
          (fun r => openRuleVerdict r path fop) = none) →
      check_path_policy m path fop = m.default_policy.getD 0) := by
  refine ⟨?_, ?_, ?_, ?_⟩
  · intro r path fop h1 h64 hpm
    have hlen : ¬(r.path_len = 0 ∨ r.path_len > 64) := by omega
    refine ⟨?_, ?_, ?_⟩
    · intro hop; simp [openRuleVerdict, hlen, hpm, hop]
    · intro hop
      by_cases h0 : r.operation = OP_OPEN
      · simp [openRuleVerdict, hlen, hpm, h0]
      · simp [openRuleVerdict, hlen, hpm, h0, hop]
    · intro h0 hop; simp [openRuleVerdict, hlen, hpm, h0, hop]
  · intro f_mode
    refine ⟨?_, ?_, ?_⟩
    · intro hw; simp [get_file_operation_type, hw]
    · intro hw hr; simp [get_file_operation_type, hw, hr]
    · intro hw hr; simp [get_file_operation_type, hw, hr]
  · intro m path fop k a hk hnone hka
    have hn0 : m.num_rules.getD 0 ≠ 0 := by omega
    have hhit := firstHit_eq_some
      (fun i => (m.policy_rules.getD i none).bind
        (fun r => openRuleVerdict r path fop))
      (min (m.num_rules.getD 0) 256) k a hk hnone hka
    simp only [check_path_policy]
    rw [if_neg hn0, hhit]
  · intro m path fop hnone
    by_cases hn0 : m.num_rules.getD 0 = 0
    · simp [check_path_policy, hn0]
    · have hmiss := firstHit_eq_none
        (fun i => (m.policy_rules.getD i none).bind
          (fun r => openRuleVerdict r path fop))
        (min (m.num_rules.getD 0) 256) hnone
      simp only [check_path_policy]
      rw [if_neg hn0, hmiss]

/-- Witness for C6: the rule denying /etc/shadow decides a read-only open
of /etc/shadow with action 0. -/
theorem open_matcher_semantics_witness :
    openRuleVerdict ruleShadow (strBytes "/etc/shadow") OP_OPEN_RO
      = some 0 :=
  (open_matcher_semantics.1 ruleShadow (strBytes "/etc/shadow") OP_OPEN_RO
    (by decide) (by decide) (by decide)).1 (by decide)

/--
C9: in the open and exec matchers, a rule with path_len == 0 or
path_len > 64 is ignored, and for 1 ≤ path_len ≤ 64 the path of a rule
matches the observed path exactly when the first min(path_len, 64) bytes
are equal byte-for-byte, with no case folding and no normalization.
-/
theorem path_len_bounds_and_byte_exact :
    (∀ (r : PolicyRule) (path : List Nat) (fop : Nat),
      r.path_len = 0 ∨ r.path_len > 64 →
      openRuleVerdict r path fop = none)
    ∧
    (∀ (r : ExecPolicyRule) (path : List Nat)
        (pending : Option PendingExecArgs),
      r.path_len = 0 ∨ r.path_len > 64 →
      execRuleVerdict r path pending = none)
    ∧
    (∀ (s p : List Nat) (len : Nat), 1 ≤ len → len ≤ 64 →
      (simple_string_starts_with s p len = true ↔
        ∀ i, i < len → byteAt s i = byteAt p i)) := by
  refine ⟨?_, ?_, ?_⟩
  · intro r path fop h; simp [openRuleVerdict, h]
  · intro r path pending h; simp [execRuleVerdict, h]
  · intro s p len h1 h64
    have hmin : min len 64 = len := by omega
    simp [simple_string_starts_with, hmin, List.all_eq_true,
      List.mem_range]

/-- Witness for C9: a rule with path_len 65 is ignored by the open
matcher, and byte equality over the full length decides the match. -/
theorem path_len_bounds_witness :
    openRuleVerdict
      { ruleShadow with path_len := 65 } (strBytes "/etc/shadow") 1
      = none ∧
    simple_string_starts_with (strBytes "/etc/shadow")
      (strBytes "/etc/s") 6 = true :=
  ⟨path_len_bounds_and_byte_exact.1 _ (strBytes "/etc/shadow") 1
    (Or.inr (by decide)),
   (path_len_bounds_and_byte_exact.2.2 (strBytes "/etc/shadow")
     (strBytes "/etc/s") 6 (by decide) (by decide)).mpr (by decide)⟩

/--
C7: in the exec matcher, for every rule whose path prefix matches: if
rule.arg_count == 0 the action of the rule is returned immediately; if
the rule is a deny rule with arg_count > 0, the first min(arg_count, 3)
policy argument patterns are compared against the correlated
argv[1..min(argc,4)] (argv[0] skipped), each comparison byte-wise over
min(arg_lens[p], 16) bytes against the byte prefix of the actual
argument, and any single pattern/argument equality returns deny (0),
while no equality lets matching continue; an allow rule with
arg_count > 0 never decides and matching continues to the next rule.
-/
theorem exec_arg_blacklist_semantics :
    (∀ (r : ExecPolicyRule) (path : List Nat)
        (pending : Option PendingExecArgs),
      1 ≤ r.path_len → r.path_len ≤ 64 →
      simple_string_starts_with path r.path r.path_len = true →
      r.arg_count = 0 → execRuleVerdict r path pending = some r.action)
    ∧
    (∀ (r : ExecPolicyRule) (path : List Nat) (P : PendingExecArgs)
        (p a : Nat),
      1 ≤ r.path_len → r.path_len ≤ 64 →
      simple_string_starts_with path r.path r.path_len = true →
      r.action = 0 → 0 < r.arg_count → 1 < P.argc →
      p < min r.arg_count 3 → 1 ≤ a → a < 4 → a < P.argc →
      argPrefixEq (P.detailed_args.getD a []) (r.args.getD p [])
        (r.arg_lens.getD p 0) = true →
      execRuleVerdict r path (some P) = some 0)
    ∧
    (∀ (r : ExecPolicyRule) (path : List Nat) (P : PendingExecArgs),
      r.action = 0 → 0 < r.arg_count → blacklist_hit r P = false →
      execRuleVerdict r path (some P) = none)
    ∧
    (∀ (r : ExecPolicyRule) (path : List Nat)
        (pending : Option PendingExecArgs),
      r.action ≠ 0 → 0 < r.arg_count →
      execRuleVerdict r path pending = none)
    ∧
    (∀ (actual pat : List Nat) (plen : Nat),
      argPrefixEq actual pat plen = true ↔
        ∀ j, j < min plen 16 → byteAt actual j = byteAt pat j) := by
  refine ⟨?_, ?_, ?_, ?_, ?_⟩
  · intro r path pending h1 h64 hpm harg
    have hlen : ¬(r.path_len = 0 ∨ r.path_len > 64) := by omega
    simp [execRuleVerdict, hlen, hpm, harg]
  · intro r path P p a h1 h64 hpm hact hrc hargc hp ha1 ha4 hac hpe
    have hlen : ¬(r.path_len = 0 ∨ r.path_len > 64) := by omega
    have hargne : ¬(r.arg_count = 0) := by omega
    have hmem1 : a ∈ List.range' 1 3 := by
      rw [List.mem_range']
      exact ⟨a - 1, by omega, by omega⟩
    have hinner : (List.range' 1 3).any (fun x =>
        decide (x < P.argc) &&
          argPrefixEq (P.detailed_args.getD x [])
            (r.args.getD p []) (r.arg_lens.getD p 0)) = true := by
      refine List.any_eq_true.mpr ⟨a, hmem1, ?_⟩
      rw [Bool.and_eq_true]
      exact ⟨decide_eq_true hac, hpe⟩
    have hbl : blacklist_hit r P = true := by
      unfold blacklist_hit
      exact List.any_eq_true.mpr ⟨p, List.mem_range.mpr hp, hinner⟩
    simp [execRuleVerdict, hlen, hpm, hargne, hargc, hact, hrc, hbl]
  · intro r path P hact hrc hbl
    have h3 : ¬(r.arg_count = 0) := by omega
    have hno : ¬(P.argc > 1 ∧ r.arg_count > 0 ∧ r.action = 0
        ∧ blacklist_hit r P = true) := by
      intro hc
      exact absurd hc.2.2.2 (by simp [hbl])
    unfold execRuleVerdict
    by_cases h1 : r.path_len = 0 ∨ r.path_len > 64
    · simp [h1]
    · by_cases h2 : simple_string_starts_with path r.path r.path_len = true
      · simp [h1, h2, h3, hno]
      · simp [h1, h2]
  · intro r path pending hact hrc
    have h3 : ¬(r.arg_count = 0) := by omega
    cases pending with
    | none =>
      unfold execRuleVerdict
      by_cases h1 : r.path_len = 0 ∨ r.path_len > 64
      · simp [h1]
      · by_cases h2 : simple_string_starts_with path r.path r.path_len = true
        · simp [h1, h2, h3]
        · simp [h1, h2]
    | some P =>
      have hno : ¬(P.argc > 1 ∧ r.arg_count > 0 ∧ r.action = 0
          ∧ blacklist_hit r P = true) := fun hc => hact hc.2.2.1
      unfold execRuleVerdict
      by_cases h1 : r.path_len = 0 ∨ r.path_len > 64
      · simp [h1]
      · by_cases h2 : simple_string_starts_with path r.path r.path_len = true
        · simp [h1, h2, h3, hno]
        · simp [h1, h2]
  · intro actual pat plen
    simp [argPrefixEq, List.all_eq_true, List.mem_range]

/-- Witness for C7: the deny rule for /bin/ with pattern "--privileged"
denies an exec of /bin/ls whose argv[1] is "--privileged". -/
theorem exec_arg_blacklist_witness :
    execRuleVerdict execDenyPriv (strBytes "/bin/ls") (some pendPriv)
      = some 0 :=
  exec_arg_blacklist_semantics.2.1 execDenyPriv (strBytes "/bin/ls")
    pendPriv 0 1 (by decide) (by decide) (by decide) (by decide)
    (by decide) (by decide) (by decide) (by decide) (by decide)
    (by decide) (by decide)

/--
C10: in the exec matcher, a deny rule with arg_count > 0 whose path
prefix matches can return deny only when a PendingExecArgs entry exists
for the current PID with argc > 1; when the correlation entry is missing
or its argc is at most 1, the rule is skipped and matching continues to
the next rule, so the verdict falls to later rules or the default
policy.
-/
theorem exec_deny_args_need_correlation :
    (∀ (r : ExecPolicyRule) (path : List Nat)
        (pending : Option PendingExecArgs) (v : Nat),
      r.action = 0 → r.arg_count ≠ 0 →
      execRuleVerdict r path pending = some v →
      ∃ P, pending = some P ∧ 1 < P.argc)
    ∧
    (∀ (r : ExecPolicyRule) (path : List Nat),
      1 ≤ r.path_len → r.path_len ≤ 64 →
      simple_string_starts_with path r.path r.path_len = true →
      r.action = 0 → r.arg_count ≠ 0 →
      execRuleVerdict r path none = none)
    ∧
    (∀ (r : ExecPolicyRule) (path : List Nat) (P : PendingExecArgs),
      1 ≤ r.path_len → r.path_len ≤ 64 →
      simple_string_starts_with path r.path r.path_len = true →
      r.action = 0 → r.arg_count ≠ 0 → P.argc ≤ 1 →
      execRuleVerdict r path (some P) = none) := by
  refine ⟨?_, ?_, ?_⟩
  · intro r path pending v hact hrc hv
    cases pending with
    | none =>
      exfalso
      unfold execRuleVerdict at hv
      by_cases h1 : r.path_len = 0 ∨ r.path_len > 64
      · simp [h1] at hv
      · by_cases h2 : simple_string_starts_with path r.path r.path_len = true
        · simp [h1, h2, hrc] at hv
        · simp [h1, h2] at hv
    | some P =>
      by_cases hPa : 1 < P.argc
      · exact ⟨P, rfl, hPa⟩
      · exfalso
        have hno : ¬(P.argc > 1 ∧ r.arg_count > 0 ∧ r.action = 0
            ∧ blacklist_hit r P = true) := fun hc => hPa hc.1
        unfold execRuleVerdict at hv
        by_cases h1 : r.path_len = 0 ∨ r.path_len > 64
        · simp [h1] at hv
        · by_cases h2 : simple_string_starts_with path r.path r.path_len = true
          · simp [h1, h2, hrc, hno] at hv
          · simp [h1, h2] at hv
  · intro r path h1 h64 hpm hact hrc
    have hlen : ¬(r.path_len = 0 ∨ r.path_len > 64) := by omega
    simp [execRuleVerdict, hlen, hpm, hrc]
  · intro r path P h1 h64 hpm hact hrc hargc
    have hlen : ¬(r.path_len = 0 ∨ r.path_len > 64) := by omega
    have hno : ¬(P.argc > 1 ∧ r.arg_count > 0 ∧ r.action = 0
        ∧ blacklist_hit r P = true) := by
      intro hc
      exact absurd hc.1 (by omega)
    simp [execRuleVerdict, hlen, hpm, hrc, hno]

/-- Witness for C10: the deny rule for /bin/ with a pattern is skipped
for an exec of /bin/ls with no correlation entry. -/
theorem exec_deny_args_need_correlation_witness :
    execRuleVerdict execDenyPriv (strBytes "/bin/ls") none = none :=
  exec_deny_args_need_correlation.2.1 execDenyPriv (strBytes "/bin/ls")
    (by decide) (by decide) (by decide) (by decide) (by decide)

/--
C8: in the connect matcher, rules are inspected in index order over
[0, min(num_rules, 256)); a rule is skipped when rule.dest_ip != 0 and
differs from the observed destination IP, or when rule.dest_port != 0
and differs from the observed destination port, and otherwise its action
is returned; a rule with dest_ip == 0 and dest_port == 0 matches every
IPv4 endpoint, and when no rule matches the verdict is
connect_default_policy[0], or deny (0) if that slot is absent.
-/
theorem connect_matcher_semantics :
    (∀ (r : ConnectPolicyRule) (ip port : Nat),
      r.dest_ip ≠ 0 → r.dest_ip ≠ ip →
      connectRuleVerdict r ip port = none)
    ∧
    (∀ (r : ConnectPolicyRule) (ip port : Nat),
      r.dest_port ≠ 0 → r.dest_port ≠ port →
      connectRuleVerdict r ip port = none)
    ∧
    (∀ (r : ConnectPolicyRule) (ip port : Nat),
      (r.dest_ip = 0 ∨ r.dest_ip = ip) →
      (r.dest_port = 0 ∨ r.dest_port = port) →
      connectRuleVerdict r ip port = some r.action)
    ∧
    (∀ (m : ConnectMaps) (ip port : Nat) (nr : Int) (k a : Nat),
      m.num_rules = some nr → 0 < nr → k < min nr.toNat 256 →
      (∀ j, j < k → (m.policy_rules.getD j none).bind
        (fun r => connectRuleVerdict r ip port) = none) →
      (m.policy_rules.getD k none).bind
        (fun r => connectRuleVerdict r ip port) = some a →
      check_connect_policy m ip port = a)
    ∧
    (∀ (m : ConnectMaps) (ip port : Nat) (nr : Int),
      m.num_rules = some nr →
      (∀ j, j < min nr.toNat 256 → (m.policy_rules.getD j none).bind
        (fun r => connectRuleVerdict r ip port) = none) →
      check_connect_policy m ip port = m.default_policy.getD 0) := by
  refine ⟨?_, ?_, ?_, ?_, ?_⟩
  · intro r ip port hnz hne
    simp [connectRuleVerdict, hnz, hne]
  · intro r ip port hnz hne
    unfold connectRuleVerdict
    by_cases h1 : r.dest_ip ≠ 0 ∧ r.dest_ip ≠ ip
    · simp [h1]
    · rw [if_neg h1, if_pos ⟨hnz, hne⟩]
  · intro r ip port hip hport
    unfold connectRuleVerdict
    rw [if_neg (by tauto), if_neg (by tauto)]
  · intro m ip port nr k a hnr hpos hk hnone hka
    have hhit := firstHit_eq_some
      (fun i => (m.policy_rules.getD i none).bind
        (fun r => connectRuleVerdict r ip port))
      (min nr.toNat 256) k a hk hnone hka
    simp only [check_connect_policy, hnr]
    rw [if_neg (by omega), hhit]
  · intro m ip port nr hnr hnone
    by_cases hz : nr ≤ 0
    · simp only [check_connect_policy, hnr]
      rw [if_pos hz]
    · have hmiss := firstHit_eq_none
        (fun i => (m.policy_rules.getD i none).bind
          (fun r => connectRuleVerdict r ip port))
        (min nr.toNat 256) hnone
      simp only [check_connect_policy, hnr]
      rw [if_neg hz, hmiss]

/-- Witness for C8: the any-IP port-443 allow rule is skipped for port 80
and the matcher falls to the deny default of connMaps1. -/
theorem connect_matcher_witness :
    connectRuleVerdict connAllow443 0x04030201 80 = none ∧
    check_connect_policy connMaps1 0x04030201 80 = 0 :=
  ⟨connect_matcher_semantics.2.1 connAllow443 0x04030201 80
    (by decide) (by decide),
   connect_matcher_semantics.2.2.2.2 connMaps1 0x04030201 80 1 rfl
    (by decide)⟩

/--
C1 (amended): for every probe, if the sentinel slot target_cgroup[0] of
the domain is missing or zero, or the cgroup gate of the domain fails,
the probe returns 0 (allow), emits no event, and leaves the correlation
map unchanged. For file_open, bprm_check_security and the execve
tracepoint the gate requires the cgroup id of the current task to be
present in allowed_cgroups with value 1; for socket_connect and
socket_sendmsg mere presence of the cgroup id suffices, whatever the
stored value.
-/
theorem cgroup_gate_scope :
    (∀ (env : TaskEnv) (m : OpenMaps) (path : List Nat) (fm : Nat)
        (res : Bool),
      (m.target_cgroup = none ∨ m.target_cgroup = some 0 ∨
        List.lookup env.cgroup_id m.allowed_cgroups ≠ some 1) →
      lsm_open env m path fm res = (0, none))
    ∧
    (∀ (env : TaskEnv) (m : ExecMaps) (pm : List (Nat × PendingExecArgs))
        (path : List Nat) (res : Bool),
      (m.target_cgroup = none ∨ m.target_cgroup = some 0 ∨
        List.lookup env.cgroup_id m.allowed_cgroups ≠ some 1) →
      lsm_exec env m pm path res = (0, none, pm))
    ∧
    (∀ (env : TaskEnv) (m : ExecMaps) (pm : List (Nat × PendingExecArgs))
        (filename : Option (List Nat)) (argv : List (List Nat)),
      (m.target_cgroup = none ∨ m.target_cgroup = some 0 ∨
        List.lookup env.cgroup_id m.allowed_cgroups ≠ some 1) →
      trace_sys_enter_execve env m pm filename argv = pm)
    ∧
    (∀ (env : TaskEnv) (m : ConnectMaps) (inp : ConnectInput) (res : Bool),
      (m.target_cgroup = none ∨ m.target_cgroup = some 0 ∨
        List.lookup env.cgroup_id m.allowed_cgroups = none) →
      lsm_connect env m inp res = (0, none))
    ∧
    (∀ (env : TaskEnv) (m : ConnectMaps) (inp : SendmsgInput) (res : Bool),
      (m.target_cgroup = none ∨ m.target_cgroup = some 0 ∨
        List.lookup env.cgroup_id m.allowed_cgroups = none) →
      lsm_sendmsg env m inp res = (0, none))
    ∧
    (∀ (target : Option Nat) (allowed : List (Nat × Nat)) (cur : Nat),
      is_target_cgroup target allowed cur = true ↔
        ∃ t, target = some t ∧ t ≠ 0 ∧ List.lookup cur allowed = some 1)
    ∧
    (∀ (target : Option Nat) (allowed : List (Nat × Nat)) (cur : Nat),
      is_connect_target_cgroup target allowed cur = true ↔
        ∃ t, target = some t ∧ t ≠ 0 ∧
          (List.lookup cur allowed).isSome = true) := by
  have gate1 : ∀ (target : Option Nat) (allowed : List (Nat × Nat))
      (cur : Nat),
      (target = none ∨ target = some 0 ∨
        List.lookup cur allowed ≠ some 1) →
      is_target_cgroup target allowed cur = false := by
    intro target allowed cur h
    rw [Bool.eq_false_iff]
    intro htrue
    obtain ⟨t, ht, htne, hlk⟩ := (is_target_cgroup_true_iff _ _ _).mp htrue
    rcases h with h | h | h
    · rw [h] at ht; cases ht
    · rw [h] at ht
      injection ht with ht2
      exact htne ht2.symm
    · exact h hlk
  have gate2 : ∀ (target : Option Nat) (allowed : List (Nat × Nat))
      (cur : Nat),
      (target = none ∨ target = some 0 ∨
        List.lookup cur allowed ≠ some 1) →
      is_exec_target_cgroup target allowed cur = false := by
    intro target allowed cur h
    rw [Bool.eq_false_iff]
    intro htrue
    obtain ⟨t, ht, htne, hlk⟩ :=
      (is_exec_target_cgroup_true_iff _ _ _).mp htrue
    rcases h with h | h | h
    · rw [h] at ht; cases ht
    · rw [h] at ht
      injection ht with ht2
      exact htne ht2.symm
    · exact h hlk
  have gate3 : ∀ (target : Option Nat) (allowed : List (Nat × Nat))
      (cur : Nat),
      (target = none ∨ target = some 0 ∨
        List.lookup cur allowed = none) →
      is_connect_target_cgroup target allowed cur = false := by
    intro target allowed cur h
    rw [Bool.eq_false_iff]
    intro htrue
    obtain ⟨t, ht, htne, hlk⟩ :=
      (is_connect_target_cgroup_true_iff _ _ _).mp htrue
    rcases h with h | h | h
    · rw [h] at ht; cases ht
    · rw [h] at ht
      injection ht with ht2
      exact htne ht2.symm
    · rw [h] at hlk; cases hlk
  refine ⟨?_, ?_, ?_, ?_, ?_, is_target_cgroup_true_iff,
    is_connect_target_cgroup_true_iff⟩
  · intro env m path fm res h
    simp [lsm_open, gate1 _ _ _ h]
  · intro env m pm path res h
    simp [lsm_exec, gate2 _ _ _ h]
  · intro env m pm filename argv h
    simp [trace_sys_enter_execve, gate2 _ _ _ h]
  · intro env m inp res h
    simp [lsm_connect, gate3 _ _ _ h]
  · intro env m inp res h
    simp [lsm_sendmsg, gate3 _ _ _ h]

/-- Counterexample for C1 as frozen: connValZero stores value 0 (not 1)
for cgroup 7, yet the socket_connect probe still treats the cgroup as
monitored, denies the connection and emits an event. -/
theorem connect_gate_value_counterexample :
    List.lookup envBash.cgroup_id connValZero.allowed_cgroups = some 0 ∧
    is_connect_target_cgroup connValZero.target_cgroup
      connValZero.allowed_cgroups envBash.cgroup_id = true ∧
    lsm_connect envBash connValZero connReq80 true ≠ (0, none) :=
  ⟨by decide, by decide, by decide⟩

/-- Witness for C1: with the sentinel slot missing, file_open allows and
logs nothing. -/
theorem cgroup_gate_scope_witness :
    lsm_open envBash openUnset (strBytes "/etc/shadow") 1 true
      = (0, none) :=
  cgroup_gate_scope.1 envBash openUnset (strBytes "/etc/shadow") 1 true
    (Or.inl rfl)

/--
C2 (amended): for the bprm_check_security, socket_connect and
socket_sendmsg probes the verdict returned to the kernel never depends
on the outcome of the ring-buffer reservation; for file_open it does not
depend on it whenever the comm bypass does not apply, and also whenever
the matcher verdict is already allow. (When the comm bypass applies and
the matcher says deny, the file_open probe returns deny on reservation
failure but allow on success.)
-/
theorem verdict_reservation_independence :
    (∀ (env : TaskEnv) (m : ExecMaps) (pm : List (Nat × PendingExecArgs))
        (path : List Nat),
      (lsm_exec env m pm path false).1 = (lsm_exec env m pm path true).1)
    ∧
    (∀ (env : TaskEnv) (m : ConnectMaps) (inp : ConnectInput),
      (lsm_connect env m inp false).1 = (lsm_connect env m inp true).1)
    ∧
    (∀ (env : TaskEnv) (m : ConnectMaps) (inp : SendmsgInput),
      (lsm_sendmsg env m inp false).1 = (lsm_sendmsg env m inp true).1)
    ∧
    (∀ (env : TaskEnv) (m : OpenMaps) (path : List Nat) (fm : Nat),
      comm_bypass env.comm = false →
      (lsm_open env m path fm false).1 = (lsm_open env m path fm true).1)
    ∧
    (∀ (env : TaskEnv) (m : OpenMaps) (path : List Nat) (fm : Nat),
      check_path_policy m path (get_file_operation_type fm) ≠ 0 →
      (lsm_open env m path fm false).1
        = (lsm_open env m path fm true).1) := by
  refine ⟨?_, ?_, ?_, ?_, ?_⟩
  · intro env m pm path
    cases hg : is_exec_target_cgroup m.target_cgroup m.allowed_cgroups
        env.cgroup_id
    · simp [lsm_exec, hg]
    · cases hl : List.lookup (taskPid env) pm with
      | none => simp [lsm_exec, hg, hl]
      | some P => simp [lsm_exec, hg, hl]
  · intro env m inp
    cases hg : is_connect_target_cgroup m.target_cgroup m.allowed_cgroups
        env.cgroup_id
    · simp [lsm_connect, hg]
    · cases hf : inp.familyRead with
      | none => simp [lsm_connect, hg, hf]
      | some fam =>
        by_cases hfa : fam = AF_INET
        · cases ha : inp.addrRead with
          | none => simp [lsm_connect, hg, hf, hfa, ha]
          | some pr =>
            obtain ⟨ip, port⟩ := pr
            simp [lsm_connect, hg, hf, hfa, ha, process_network_event]
        · simp [lsm_connect, hg, hf, hfa]
  · intro env m inp
    cases hg : is_connect_target_cgroup m.target_cgroup m.allowed_cgroups
        env.cgroup_id
    · simp [lsm_sendmsg, hg]
    · cases hro : inp.readNameOk
      · simp [lsm_sendmsg, hg, hro]
      · cases hnn : inp.nameNull
        · cases hf : inp.familyRead with
          | none => simp [lsm_sendmsg, hg, hro, hnn, hf]
          | some fam =>
            by_cases hfa : fam = AF_INET
            · cases ha : inp.addrRead with
              | none => simp [lsm_sendmsg, hg, hro, hnn, hf, hfa, ha]
              | some pr =>
                obtain ⟨ip, port⟩ := pr
                simp [lsm_sendmsg, hg, hro, hnn, hf, hfa, ha,
                  process_network_event]
            · simp [lsm_sendmsg, hg, hro, hnn, hf, hfa]
        · simp [lsm_sendmsg, hg, hro, hnn]
  · intro env m path fm hbp
    cases hg : is_target_cgroup m.target_cgroup m.allowed_cgroups
        env.cgroup_id
    · simp [lsm_open, hg]
    · by_cases hn : is_nsfs_path path = true
      · simp [lsm_open, hg, hn]
      · simp [lsm_open, hg, hn, hbp]
  · intro env m path fm hpr
    cases hg : is_target_cgroup m.target_cgroup m.allowed_cgroups
        env.cgroup_id
    · simp [lsm_open, hg]
    · by_cases hn : is_nsfs_path path = true
      · simp [lsm_open, hg, hn]
      · by_cases hbp : comm_bypass env.comm = true
        · simp [lsm_open, hg, hn, hbp, verdictOf, hpr]
        · simp [lsm_open, hg, hn, hbp]

/-- Counterexample for C2 as frozen: in a monitored cgroup with default
deny and comm "apt-get", the file_open verdict is deny when reservation
fails but allow when it succeeds. -/
theorem open_reservation_verdict_counterexample :
    (lsm_open envApt openDeny (strBytes "/anything") 1 false).1 = -13 ∧
    (lsm_open envApt openDeny (strBytes "/anything") 1 true).1 = 0 :=
  ⟨by decide, by decide⟩

/-- Witness for C2: with comm "bash" the file_open verdict is the same
whether or not reservation succeeds. -/
theorem verdict_reservation_independence_witness :
    (lsm_open envBash openDeny (strBytes "/anything") 1 false).1
      = (lsm_open envBash openDeny (strBytes "/anything") 1 true).1 :=
  verdict_reservation_independence.2.2.2.1 envBash openDeny
    (strBytes "/anything") 1 (by decide)

/--
C3 (amended): in the file_open probe running in a monitored cgroup, on a
non-nsfs path, and provided the ring-buffer reservation succeeds,
whenever the comm of the current task equals "apt-get" exactly, or
begins with "dpkg", or begins with "update", the verdict returned to the
kernel is allow (0) regardless of the rules and default policy, and an
event is still emitted with result 0.
-/
theorem comm_bypass_forces_allow :
    ∀ (env : TaskEnv) (m : OpenMaps) (path : List Nat) (fm : Nat),
      is_target_cgroup m.target_cgroup m.allowed_cgroups env.cgroup_id
        = true →
      is_nsfs_path path = false →
      comm_bypass env.comm = true →
      ∃ ev, lsm_open env m path fm true = (0, some ev) ∧
        ev.result = 0 := by
  intro env m path fm hg hn hbp
  refine ⟨{ pid := taskPid env, tgid := taskTgid env,
            timestamp := env.timestamp, cgroup_id := env.cgroup_id,
            comm := env.comm, path := path,
            operation := get_file_operation_type fm, result := 0 },
          ?_, rfl⟩
  simp [lsm_open, hg, hn, hbp, verdictOf]

/-- Counterexample for C3 as frozen: with comm "apt-get", a monitored
cgroup and default deny, a failed reservation yields verdict -13 and no
event, so the bypass does not hold regardless of reservation outcome. -/
theorem comm_bypass_reservation_counterexample :
    comm_bypass envApt.comm = true ∧
    is_target_cgroup openDeny.target_cgroup openDeny.allowed_cgroups
      envApt.cgroup_id = true ∧
    lsm_open envApt openDeny (strBytes "/etc/passwd") 1 false
      = (-13, none) :=
  ⟨by decide, by decide, by decide⟩

/-- Witness for C3: comm "apt-get" forces allow under default deny when
reservation succeeds. -/
theorem comm_bypass_forces_allow_witness :
    ∃ ev, lsm_open envApt openDeny (strBytes "/anything") 1 true
      = (0, some ev) ∧ ev.result = 0 :=
  comm_bypass_forces_allow envApt openDeny (strBytes "/anything") 1
    (by decide) (by decide) (by decide)

/-- The digit scan accepts k digits followed by a closing bracket
whenever k is below the remaining fuel. -/
theorem nsfsDigitScan_spec (path : List Nat) :
    ∀ (k pos fuel : Nat) (fd : Bool), k < fuel → pos + k < 256 →
      (∀ j, j < k → 48 ≤ byteAt path (pos + j) ∧
        byteAt path (pos + j) ≤ 57) →
      byteAt path (pos + k) = 93 →
      (1 ≤ k ∨ fd = true) →
      nsfsDigitScan path pos fuel fd = true := by
  intro k
  induction k with
  | zero =>
    intro pos fuel fd hk hpos hdig hbr hor
    have hfd : fd = true := by
      rcases hor with h | h
      · exact absurd h (by omega)
      · exact h
    cases fuel with
    | zero => exact absurd hk (by omega)
    | succ f =>
      have hlt : ¬(pos ≥ 256) := by omega
      have hc : byteAt path pos = 93 := by
        rw [← Nat.add_zero pos]; exact hbr
      simp [nsfsDigitScan, hlt, hc, hfd]
  | succ n ih =>
    intro pos fuel fd hk hpos hdig hbr hor
    cases fuel with
    | zero => exact absurd hk (by omega)
    | succ f =>
      have hlt : ¬(pos ≥ 256) := by omega
      have hd0 := hdig 0 (by omega)
      rw [Nat.add_zero] at hd0
      have hrec : nsfsDigitScan path (pos + 1) f true = true := by
        refine ih (pos + 1) f true (by omega) (by omega) ?_ ?_
          (Or.inr rfl)
        · intro j hj
          have hh := hdig (j + 1) (by omega)
          rwa [show pos + (j + 1) = pos + 1 + j by omega] at hh
        · have hh := hbr
          rwa [show pos + (n + 1) = pos + 1 + n by omega] at hh
      simp [nsfsDigitScan, hlt, hd0.1, hd0.2, hrec]

/--
C4 (amended): in the file_open probe, if the resolved path begins with
one of the prefixes mnt:[, net:[, ipc:[, pid:[, uts:[, user:[,
cgroup:[, time:[ followed by k ASCII digits with 1 ≤ k ≤ 15 and then a
closing bracket, the probe returns allow (0) and emits no event, even
when every rule and the default policy would deny. (The digit scan of
the source inspects at most 16 characters after the prefix, so a bracket
preceded by 16 or more digits is not recognised.)
-/
theorem nsfs_bypass_allows_unlogged :
    ∀ (env : TaskEnv) (m : OpenMaps) (path : List Nat) (fm : Nat)
      (res : Bool) (pre : List Nat) (k : Nat),
      pre ∈ nsfsPrefixes →
      1 ≤ k → k ≤ 15 →
      startsWithBytes path pre = true →
      (∀ j, j < k → 48 ≤ byteAt path (pre.length + j) ∧
        byteAt path (pre.length + j) ≤ 57) →
      byteAt path (pre.length + k) = 93 →
      lsm_open env m path fm res = (0, none) := by
  intro env m path fm res pre k hmem hk1 hk15 hsw hdig hbr
  have hmem2 := hmem
  have hprelen : pre.length ≤ 8 := by
    simp only [nsfsPrefixes, List.mem_cons, List.not_mem_nil,
      or_false] at hmem2
    rcases hmem2 with rfl | rfl | rfl | rfl | rfl | rfl | rfl | rfl <;>
      decide
  have hscan : nsfsDigitScan path pre.length 16 false = true :=
    nsfsDigitScan_spec path k pre.length 16 false (by omega) (by omega)
      hdig hbr (Or.inl hk1)
  have hnsfs : is_nsfs_path path = true := by
    unfold is_nsfs_path
    refine List.any_eq_true.mpr ⟨pre, hmem, ?_⟩
    rw [Bool.and_eq_true]
    exact ⟨hsw, hscan⟩
  cases hg : is_target_cgroup m.target_cgroup m.allowed_cgroups
      env.cgroup_id
  · simp [lsm_open, hg]
  · simp [lsm_open, hg, hnsfs]

/-- Counterexample for C4 as frozen: a path with the net:[ head, sixteen
digits and a closing bracket satisfies the claimed shape (at least one
digit) but is not recognised; under default deny the open is denied and
an event is emitted. -/
theorem nsfs_sixteen_digit_counterexample :
    startsWithBytes pathNsfs16 (strBytes "net:[") = true ∧
    (∀ j, j < 16 → 48 ≤ byteAt pathNsfs16 (5 + j) ∧
      byteAt pathNsfs16 (5 + j) ≤ 57) ∧
    byteAt pathNsfs16 (5 + 16) = 93 ∧
    is_nsfs_path pathNsfs16 = false ∧
    (lsm_open envBash openDeny pathNsfs16 1 true).1 = -13 ∧
    (lsm_open envBash openDeny pathNsfs16 1 true).2 ≠ none :=
  ⟨by decide, by decide, by decide, by decide, by decide, by decide⟩

/-- Witness for C4: net:[4026532621] is allowed and unlogged even under
default deny. -/
theorem nsfs_bypass_witness :
    lsm_open envBash openDeny (strBytes "net:[4026532621]") 1 true
      = (0, none) :=
  nsfs_bypass_allows_unlogged envBash openDeny
    (strBytes "net:[4026532621]") 1 true (strBytes "net:[") 10
    (by decide) (by decide) (by decide) (by decide) (by decide)
    (by decide)

/--
C5 (amended): if the execve tracepoint fires for a PID in a monitored
cgroup and stores a PendingExecArgs entry, and the exec LSM hook then
fires for the same PID with no intervening execve and its ring-buffer
reservation succeeds, the LSM hook observes that entry, copies its argc
and detailed_args into the outgoing event, and deletes it from the
pending_exec_args map before returning.
-/
theorem exec_correlation_observed_and_deleted :
    ∀ (env : TaskEnv) (m : ExecMaps) (pm : List (Nat × PendingExecArgs))
      (filename : Option (List Nat)) (argv : List (List Nat))
      (path : List Nat),
      is_exec_target_cgroup m.target_cgroup m.allowed_cgroups
        env.cgroup_id = true →
      ∃ P ev,
        List.lookup (taskPid env)
          (trace_sys_enter_execve env m pm filename argv) = some P ∧
        (lsm_exec env m (trace_sys_enter_execve env m pm filename argv)
          path true).2.1 = some ev ∧
        ev.argc = P.argc ∧ ev.detailed_args = P.detailed_args ∧
        List.lookup (taskPid env)
          (lsm_exec env m (trace_sys_enter_execve env m pm filename argv)
            path true).2.2 = none := by
  intro env m pm filename argv path hg
  have htr : ∃ P, trace_sys_enter_execve env m pm filename argv
      = mapUpdate pm (taskPid env) P := by
    unfold trace_sys_enter_execve
    rw [if_neg (by simp [hg])]
    exact ⟨_, rfl⟩
  obtain ⟨P, hP⟩ := htr
  have hlook : List.lookup (taskPid env)
      (trace_sys_enter_execve env m pm filename argv) = some P := by
    rw [hP]
    exact lookup_mapUpdate_self _ _ _
  refine ⟨P,
    { pid := taskPid env, timestamp := env.timestamp,
      cgroup_id := env.cgroup_id, comm := env.comm, path := path,
      result := verdictOf (check_exec_policy m
        (trace_sys_enter_execve env m pm filename argv)
        (taskPid env) path),
      argc := P.argc, detailed_args := P.detailed_args },
    hlook, ?_, rfl, rfl, ?_⟩
  · simp [lsm_exec, hg, hlook]
  · simp only [lsm_exec, hg, hlook]
    simp only [Bool.not_true, Bool.false_eq_true, if_false,
      Bool.not_false, if_true]
    exact lookup_mapDelete_self _ _

/-- Counterexample for C5 as frozen: when the ring-buffer reservation of
the LSM hook fails, no event carries the correlated args and the entry
stays in the map. -/
theorem exec_correlation_reservation_counterexample :
    (lsm_exec envBash execMaps1 pmAfterTrace (strBytes "/bin/ls")
      false).2.1 = none ∧
    List.lookup (taskPid envBash)
      (lsm_exec envBash execMaps1 pmAfterTrace (strBytes "/bin/ls")
        false).2.2 ≠ none :=
  ⟨by decide, by decide⟩

/-- Witness for C5: the tracepoint entry for /bin/ls --color is observed
and deleted by the LSM hook. -/
theorem exec_correlation_witness :
    ∃ P ev,
      List.lookup (taskPid envBash)
        (trace_sys_enter_execve envBash execMaps1 []
          (some (strBytes "/bin/ls"))
          [strBytes "/bin/ls", strBytes "--color"]) = some P ∧
      (lsm_exec envBash execMaps1
        (trace_sys_enter_execve envBash execMaps1 []
          (some (strBytes "/bin/ls"))
          [strBytes "/bin/ls", strBytes "--color"])
        (strBytes "/bin/ls") true).2.1 = some ev ∧
      ev.argc = P.argc ∧ ev.detailed_args = P.detailed_args ∧
      List.lookup (taskPid envBash)
        (lsm_exec envBash execMaps1
          (trace_sys_enter_execve envBash execMaps1 []
            (some (strBytes "/bin/ls"))
            [strBytes "/bin/ls", strBytes "--color"])
          (strBytes "/bin/ls") true).2.2 = none :=
  exec_correlation_observed_and_deleted envBash execMaps1 []
    (some (strBytes "/bin/ls")) [strBytes "/bin/ls", strBytes "--color"]
    (strBytes "/bin/ls") (by decide)

end Leash
